import Mathlib

/-!
Verification of a minimal Flask HTTP service (src/app.py).

The service registers two routes, `/` (handler `hello`) and `/health`
(handler `health`), on a Flask app and runs it bound to `0.0.0.0:5000`.
We embed the module shallowly:

* the result of `socket.gethostname()` at request time is an input of type
  `Lookup := Except OSErr String` (Flask calls the handler per request, and
  `hello` calls `socket.gethostname()` on every invocation, so each request
  carries its own lookup outcome);
* Flask's routing is modelled by a route table (path, allowed methods,
  handler id) and a `dispatch` function: an unmatched path yields the
  framework 404 response, a matched path with a method outside the route's
  method set yields the framework 405 response, `OPTIONS` on a matched
  path is answered by the framework itself, and otherwise the handler runs;
* since `@app.route` is used with default arguments, the allowed methods
  are `GET` plus the framework-implicit `HEAD` and `OPTIONS`;
* an exception escaping a handler (the only possible one here is a failed
  hostname lookup inside `hello`) is converted by the framework (with
  `debug=False`) into the plain 500 response, with no JSON body;
* the module-level mutable state visible to handlers is the Flask `app`
  object, whose observable content is its route table; `handle` threads it
  through explicitly so that statelessness is a statement, not an
  assumption.
-/

namespace App

/-- HTTP request methods relevant to the routing behaviour. -/
inductive Method where
  | GET
  | HEAD
  | OPTIONS
  | POST
  | PUT
  | DELETE
  | PATCH
  deriving DecidableEq, Repr

/-- An incoming HTTP request: method, URL path, headers and raw body.
The handlers in src/app.py take no arguments and never read the request
object, so headers and body exist in the model only to show that they are
ignored. -/
structure Request where
  method : Method
  path : String
  headers : List (String × String)
  body : String
  deriving DecidableEq, Repr

/-- An operating-system error raised by `socket.gethostname()`. -/
inductive OSErr where
  | oserror (msg : String)
  deriving DecidableEq, Repr

/-- The outcome of the `socket.gethostname()` call made at request time. -/
abbrev Lookup := Except OSErr String

/-- An HTTP response: status code and, when the route produced one via
`jsonify`, a JSON object body given as an ordered list of string fields.
Framework-generated responses (404, 405, 500, automatic OPTIONS) carry no
JSON object body, hence `none`. -/
structure Response where
  status : Nat
  jsonBody : Option (List (String × String))
  deriving DecidableEq, Repr

/-- src/app.py lines 7-14: the `hello` handler. It calls
`socket.gethostname()` (the result is the `hostname` argument here, see
`runHandler` for the failing case) and returns the jsonified greeting
object; Flask gives a `jsonify` response status 200. -/
def hello (hostname : String) : Response :=
  { status := 200
    jsonBody := some
      [ ("message", "Hello from Docker Swarm!")
      , ("hostname", hostname)
      , ("version", "1.0.0") ] }

/-- src/app.py lines 16-18: the `health` handler. -/
def health : Response :=
  { status := 200, jsonBody := some [("status", "healthy")] }

/-- Identifiers of the two view functions registered on the app. -/
inductive HandlerId where
  | helloH
  | healthH
  deriving DecidableEq, Repr

/-- One entry of the app's URL map: the rule's path, its allowed methods
and the view function bound to it. -/
structure Route where
  path : String
  methods : List Method
  handler : HandlerId
  deriving DecidableEq, Repr

/-- `@app.route` with no `methods` argument allows GET, and Flask
implicitly adds HEAD and OPTIONS. -/
def defaultMethods : List Method :=
  [Method.GET, Method.HEAD, Method.OPTIONS]

/-- The app's observable mutable state: its route table. -/
abbrev AppState := List Route

/-- The route table built by the two `@app.route` decorators at import
time (src/app.py lines 7 and 16). -/
def initialRoutes : AppState :=
  [ ⟨"/", defaultMethods, HandlerId.helloH⟩
  , ⟨"/health", defaultMethods, HandlerId.healthH⟩ ]

/-- Framework default response for an unmatched path. -/
def notFound : Response := { status := 404, jsonBody := none }

/-- Framework default response for a matched path with a disallowed
method. -/
def methodNotAllowed : Response := { status := 405, jsonBody := none }

/-- Framework response when an exception escapes a handler and
`debug=False`. -/
def internalServerError : Response := { status := 500, jsonBody := none }

/-- Framework-generated automatic response to OPTIONS on a matched
path; the handler is not invoked for it. -/
def optionsOk : Response := { status := 200, jsonBody := none }

/-- Run the view function named by `h`. `hello` first calls
`socket.gethostname()`; if that call raises, the exception leaves the
handler uncaught (src/app.py has no try/except). `health` makes no call
that can fail. -/
def runHandler : HandlerId → Lookup → Except OSErr Response
  | HandlerId.helloH, Except.ok host => Except.ok (hello host)
  | HandlerId.helloH, Except.error e => Except.error e
  | HandlerId.healthH, _ => Except.ok health

/-- Find the first route whose path equals the request path. -/
def findRoute (routes : AppState) (p : String) : Option Route :=
  routes.find? (fun r => r.path == p)

/-- Flask's per-request behaviour: match the path against the URL map,
enforce the method set, answer OPTIONS automatically, run the view
function otherwise, and turn an escaped exception into the 500 response. -/
def dispatch (routes : AppState) (lookup : Lookup) (req : Request) : Response :=
  match findRoute routes req.path with
  | none => notFound
  | some r =>
    if r.methods.contains req.method then
      if req.method = Method.OPTIONS then optionsOk
      else
        match runHandler r.handler lookup with
        | Except.ok resp => resp
        | Except.error _ => internalServerError
    else methodNotAllowed

/-- Handle one request against the app state. No statement in either
view function assigns to module-level state, so the state is returned as
received. -/
def handle (s : AppState) (lookup : Lookup) (req : Request) : Response × AppState :=
  (dispatch s lookup req, s)

/-- Handle a sequence of requests, each with the hostname-lookup outcome
observed at its own request time, threading the app state through. -/
def handleAll (s : AppState) : List (Lookup × Request) → List Response × AppState
  | [] => ([], s)
  | (l, r) :: rest =>
    let step := handle s l r
    let rec_ := handleAll step.2 rest
    (step.1 :: rec_.1, rec_.2)

/-- The server's run configuration: bind address, port, debug flag. -/
structure RunConfig where
  host : String
  port : Nat
  debug : Bool
  deriving DecidableEq, Repr

/-- src/app.py lines 20-21: `app.run(host='0.0.0.0', port=5000,
debug=False)`. The `__main__` block reads neither `sys.argv` nor
`os.environ`; the configuration is independent of both. -/
def mainRun (_args : List String) (_env : List (String × String)) : RunConfig :=
  { host := "0.0.0.0", port := 5000, debug := false }

end App

namespace App

/-- Claim C1: a GET request to `/` gets status 200 and a JSON body whose
fields are exactly `message`, `hostname`, `version` with the literal
greeting, the hostname the OS lookup returned, and the literal version. -/
theorem hello_route_ok (h : String) (hdrs : List (String × String)) (b : String) :
    (dispatch initialRoutes (Except.ok h) ⟨Method.GET, "/", hdrs, b⟩).status = 200 ∧
    (dispatch initialRoutes (Except.ok h) ⟨Method.GET, "/", hdrs, b⟩).jsonBody =
      some [ ("message", "Hello from Docker Swarm!")
           , ("hostname", h)
           , ("version", "1.0.0") ] ∧
    (((dispatch initialRoutes (Except.ok h) ⟨Method.GET, "/", hdrs, b⟩).jsonBody.getD
        []).map Prod.fst) = ["message", "hostname", "version"] := by
  refine ⟨rfl, rfl, rfl⟩

/-- Claim C2: a GET request to `/health` gets status 200 and the JSON body
with exactly the one field `status`, value `healthy`, regardless of the
hostname lookup outcome, the headers or the body. -/
theorem health_route_ok (lookup : Lookup) (hdrs : List (String × String)) (b : String) :
    dispatch initialRoutes lookup ⟨Method.GET, "/health", hdrs, b⟩ =
      { status := 200, jsonBody := some [("status", "healthy")] } := by
  cases lookup <;> rfl

theorem dispatch_root_eq_hello (h : String) (hdrs : List (String × String)) (b : String) :
    dispatch initialRoutes (Except.ok h) ⟨Method.GET, "/", hdrs, b⟩ = hello h := rfl

/-- Claim C3: the hostname lookup happens anew on every invocation of the
`/` handler: over any sequence of GET `/` requests, the i-th response is
the greeting built from the i-th lookup's value, whatever the earlier
lookups returned. -/
theorem hello_fresh_lookup (hosts : List String)
    (hdrs : List (String × String)) (b : String) :
    (handleAll initialRoutes
        (hosts.map (fun h => (Except.ok h, ⟨Method.GET, "/", hdrs, b⟩)))).1 =
      hosts.map hello := by
  induction hosts with
  | nil => rfl
  | cons h t ih =>
      simp only [List.map_cons, handleAll, handle, dispatch_root_eq_hello, ih]

/-- Claim C4: a request whose path is neither `/` nor `/health` falls
through the route table and gets the framework's default not-found
response, status 404, no handler body. -/
theorem unknown_path_404 (lookup : Lookup) (req : Request)
    (h1 : req.path ≠ "/") (h2 : req.path ≠ "/health") :
    dispatch initialRoutes lookup req = notFound ∧ notFound.status = 404 := by
  have e1 : (("/" : String) == req.path) = false :=
    beq_eq_false_iff_ne.mpr (Ne.symm h1)
  have e2 : (("/health" : String) == req.path) = false :=
    beq_eq_false_iff_ne.mpr (Ne.symm h2)
  refine ⟨?_, rfl⟩
  simp [dispatch, findRoute, initialRoutes, List.find?, e1, e2]

/-- Witness for `unknown_path_404` at the concrete path `/foo`. -/
theorem unknown_path_404_witness :
    dispatch initialRoutes (Except.ok "node-7") ⟨Method.GET, "/foo", [], ""⟩ = notFound ∧
    notFound.status = 404 :=
  unknown_path_404 (Except.ok "node-7") ⟨Method.GET, "/foo", [], ""⟩
    (by decide) (by decide)

/-- Claim C5: when the hostname lookup raises during a GET `/` request,
the handler does not catch it; the framework answers with the plain 500
response, which carries no greeting-shaped JSON body. -/
theorem hello_lookup_failure_500 (e : OSErr)
    (hdrs : List (String × String)) (b : String) :
    dispatch initialRoutes (Except.error e) ⟨Method.GET, "/", hdrs, b⟩ =
      internalServerError ∧
    internalServerError.status = 500 ∧
    internalServerError.jsonBody = none :=
  ⟨rfl, rfl, rfl⟩

/-- Claim C6: no handler mutates the app state: handling any sequence of
requests, in any order and with any lookup outcomes, returns the state it
started from. -/
theorem handlers_stateless (s : AppState) (reqs : List (Lookup × Request)) :
    (handleAll s reqs).2 = s := by
  induction reqs generalizing s with
  | nil => rfl
  | cons p t ih => exact ih s

/-- Claim C7: the `health` view function is total and effect-free: for
every lookup outcome it returns (never raises) the fixed 200 response, and
handling a `/health` request leaves the app state untouched. -/
theorem health_total_pure (lookup : Lookup) (s : AppState)
    (hdrs : List (String × String)) (b : String) :
    runHandler HandlerId.healthH lookup = Except.ok health ∧
    health = { status := 200, jsonBody := some [("status", "healthy")] } ∧
    (handle s lookup ⟨Method.GET, "/health", hdrs, b⟩).2 = s := by
  cases lookup <;> exact ⟨rfl, rfl, rfl⟩

/-- Claim C8: the `__main__` block binds `0.0.0.0:5000` with debug off,
and the configuration is the same whatever the command-line arguments or
environment variables are. -/
theorem main_bind_config (args args2 : List String)
    (env env2 : List (String × String)) :
    mainRun args env = { host := "0.0.0.0", port := 5000, debug := false } ∧
    mainRun args env = mainRun args2 env2 :=
  ⟨rfl, rfl⟩

/-- Claim C9: the `/` response is a function of the hostname alone: two
GET `/` requests whose lookups return the same string get identical
responses, whatever their headers and bodies. -/
theorem hello_deterministic_in_hostname (h : String)
    (hdrs1 hdrs2 : List (String × String)) (b1 b2 : String) :
    dispatch initialRoutes (Except.ok h) ⟨Method.GET, "/", hdrs1, b1⟩ =
      dispatch initialRoutes (Except.ok h) ⟨Method.GET, "/", hdrs2, b2⟩ := rfl

/-- Claim C10: both routes allow only GET plus the framework-implicit HEAD
and OPTIONS; every other method on `/` or `/health` gets the framework's
405 response, not 404 and not 200, without invoking a handler. -/
theorem non_get_method_405 (m : Method) (lookup : Lookup)
    (hdrs : List (String × String)) (b : String)
    (hg : m ≠ Method.GET) (hh : m ≠ Method.HEAD) (ho : m ≠ Method.OPTIONS) :
    dispatch initialRoutes lookup ⟨m, "/", hdrs, b⟩ = methodNotAllowed ∧
    dispatch initialRoutes lookup ⟨m, "/health", hdrs, b⟩ = methodNotAllowed ∧
    methodNotAllowed.status = 405 ∧
    methodNotAllowed.status ≠ 404 ∧ methodNotAllowed.status ≠ 200 := by
  cases m with
  | GET => exact absurd rfl hg
  | HEAD => exact absurd rfl hh
  | OPTIONS => exact absurd rfl ho
  | POST => exact ⟨rfl, rfl, rfl, by decide, by decide⟩
  | PUT => exact ⟨rfl, rfl, rfl, by decide, by decide⟩
  | DELETE => exact ⟨rfl, rfl, rfl, by decide, by decide⟩
  | PATCH => exact ⟨rfl, rfl, rfl, by decide, by decide⟩

/-- Witness for `non_get_method_405` at the concrete method POST. -/
theorem non_get_method_405_witness :
    dispatch initialRoutes (Except.ok "node-7") ⟨Method.POST, "/", [], ""⟩ =
      methodNotAllowed ∧
    dispatch initialRoutes (Except.ok "node-7") ⟨Method.POST, "/health", [], ""⟩ =
      methodNotAllowed ∧
    methodNotAllowed.status = 405 ∧
    methodNotAllowed.status ≠ 404 ∧ methodNotAllowed.status ≠ 200 :=
  non_get_method_405 Method.POST (Except.ok "node-7") [] ""
    (by decide) (by decide) (by decide)

end App
